import Mathlib

/-!
Verification of the decision core of the stock-trading-analysis repository.

The embedded code is `src/python/decision_engine.py` (class `DecisionEngine`:
`WEIGHTS`, `decide`, `_category_score`, `_map_score`, `_explain`), together
with the aggregate signal key produced by `src/python/news_analysis.py`
(`NewsAnalysis._aggregate_signal`).

Modelling choices:
- Python `float` values are modelled as rationals (`ℚ`); the decision logic
  is pure arithmetic and threshold comparison.
- A Python `dict` of signals is modelled as an association list in insertion
  order (`SignalSet` below); dict keys are unique in Python, but none of the
  scoring logic depends on uniqueness, so the model does not impose it.
- `str.startswith` / `str.endswith` are modelled by recursion over the
  character list of the string.
- Python's `round(x, n)` rounds half to even; this is modelled exactly.
-/

namespace StockAnalysis

/-- Direction of a signal: "Bullish", "Bearish" or "Neutral" (the strings
used throughout the Python code). -/
inductive Direction where
  | Bullish
  | Bearish
  | Neutral
deriving DecidableEq, Repr

/-- A SignalSet: the `signals` dict of one analysis category, mapping a key
to a (direction, reason) pair, in insertion order. -/
abbrev SignalSet := List (String × Direction × String)

/-- Whether the first character list begins with the second (helper for the
`str.startswith` / `str.endswith` model). -/
def charsHaveStart : List Char → List Char → Bool
  | _, [] => true
  | [], _ :: _ => false
  | c :: s, d :: p => c = d && charsHaveStart s p

/-- Python `s.startswith(p)`. -/
def strStarts (s p : String) : Bool := charsHaveStart s.data p.data

/-- Python `s.endswith(p)`. -/
def strEnds (s p : String) : Bool := charsHaveStart s.data.reverse p.data.reverse

/-- The aggregate-key test inside `DecisionEngine._category_score`:
`key.startswith("_") and key.endswith("Overall")`. -/
def isAggregateKey (key : String) : Bool :=
  strStarts key "_" && strEnds key "Overall"

/-- One iteration's contribution to `count` in `_category_score`: an
aggregate-keyed entry is skipped, any other entry contributes 1. -/
def entryCount (e : String × Direction × String) : Nat :=
  if isAggregateKey e.1 then 0 else 1

/-- One iteration's contribution to `total` in `_category_score`: an
aggregate-keyed entry is skipped; otherwise +1 if Bullish, -1 if Bearish,
0 if Neutral. -/
def entryTotal (e : String × Direction × String) : Int :=
  if isAggregateKey e.1 then 0
  else match e.2.1 with
       | .Bullish => 1
       | .Bearish => -1
       | .Neutral => 0

/-- The `count` accumulated by the loop of `_category_score`. -/
def leafCount : SignalSet → Nat
  | [] => 0
  | e :: rest => entryCount e + leafCount rest

/-- The `total` accumulated by the loop of `_category_score`. -/
def leafTotal : SignalSet → Int
  | [] => 0
  | e :: rest => entryTotal e + leafTotal rest

/-- `DecisionEngine._category_score`: an empty dict scores 0.0; otherwise
`total / count if count else 0.0` over the non-aggregate entries. -/
def categoryScore (signals : SignalSet) : ℚ :=
  if signals = [] then 0
  else if leafCount signals = 0 then 0
  else (leafTotal signals : ℚ) / (leafCount signals : ℚ)

/-- The shape of `DecisionEngine.WEIGHTS` (a dict with keys "technical",
"fundamental", "news"). -/
structure Weights where
  technical : ℚ
  fundamental : ℚ
  news : ℚ
deriving DecidableEq, Repr

/-- `DecisionEngine.WEIGHTS`: technical 0.40, fundamental 0.35, news 0.25. -/
def WEIGHTS : Weights :=
  { technical := 40 / 100
    fundamental := 35 / 100
    news := 25 / 100 }

/-- `DecisionEngine._map_score`: the ordered threshold ladder from the
weighted composite to a (recommendation, confidence) pair. -/
def mapScore (score : ℚ) : String × String :=
  if score ≥ 4 / 10 then ("STRONG BUY", "High")
  else if score ≥ 15 / 100 then ("BUY", "Moderate")
  else if score > -(15 / 100) then ("HOLD", "—")
  else if score > -(4 / 10) then ("SELL", "Moderate")
  else ("STRONG SELL", "High")

/-- Round to the nearest integer, ties to even (the rounding used by
Python's `round` and by `format(x, '.2f')`). -/
def roundHalfEven (x : ℚ) : ℤ :=
  if Int.fract x < 1 / 2 then ⌊x⌋
  else if 1 / 2 < Int.fract x then ⌊x⌋ + 1
  else if ⌊x⌋ % 2 = 0 then ⌊x⌋ else ⌊x⌋ + 1

/-- Python `round(x, 2)`: scale by 100, round half to even, rescale. -/
def round2 (x : ℚ) : ℚ := (roundHalfEven (x * 100) : ℚ) / 100

/-- Python format `f"{x:+.2f}"`: an always-present sign, the integer part,
a dot, and exactly two fractional digits of the value rounded to 2
decimals. The sign is the sign of the value, not of the rounded result:
a value in (-0.005, 0) prints as "-0.00". -/
def fmtSigned2 (x : ℚ) : String :=
  let n := roundHalfEven (x * 100)
  let sign := if x < 0 then "-" else "+"
  let m := n.natAbs
  let frac := m % 100
  sign ++ toString (m / 100) ++ "." ++ (if frac < 10 then "0" else "") ++ toString frac

/-- `DecisionEngine._explain`: the fixed multi-line explanation text, lines
joined with a newline. -/
def explain (ta fa news weighted : ℚ) (rec : String) : String :=
  "Technical analysis score: " ++ fmtSigned2 ta ++ " (weight 40%)" ++ "\n" ++
  "Fundamental analysis score: " ++ fmtSigned2 fa ++ " (weight 35%)" ++ "\n" ++
  "News sentiment score: " ++ fmtSigned2 news ++ " (weight 25%)" ++ "\n" ++
  "Combined weighted score: " ++ fmtSigned2 weighted ++ "\n" ++
  "Recommendation: " ++ rec ++ "\n" ++
  "\n" ++
  "Score interpretation: -1.0 (Strong Sell) to +1.0 (Strong Buy)" ++ "\n" ++
  "  >= +0.40  STRONG BUY  | >= +0.15  BUY  | -0.15 to +0.15  HOLD" ++ "\n" ++
  "  <= -0.15  SELL        | <= -0.40  STRONG SELL"

/-- The result bundle returned by `DecisionEngine.decide` (the `scores`
sub-dict is flattened into the four rounded score fields). -/
structure Decision where
  technicalScore : ℚ
  fundamentalScore : ℚ
  newsScore : ℚ
  weightedScore : ℚ
  weights : Weights
  recommendation : String
  confidence : String
  explanation : String
deriving DecidableEq, Repr

/-- The weighted composite computed inside `DecisionEngine.decide`:
`ta_score*0.40 + fa_score*0.35 + news_score*0.25`. -/
def compositeScore (taScore faScore newsScore : ℚ) : ℚ :=
  taScore * WEIGHTS.technical + faScore * WEIGHTS.fundamental +
    newsScore * WEIGHTS.news

/-- `DecisionEngine.decide`: score the three SignalSets, combine them with
the fixed weights, classify the composite, and build the result bundle. -/
def decide (ta fa news : SignalSet) : Decision :=
  let taScore := categoryScore ta
  let faScore := categoryScore fa
  let newsScore := categoryScore news
  let weighted := compositeScore taScore faScore newsScore
  let rc := mapScore weighted
  { technicalScore := round2 taScore
    fundamentalScore := round2 faScore
    newsScore := round2 newsScore
    weightedScore := round2 weighted
    weights := WEIGHTS
    recommendation := rc.1
    confidence := rc.2
    explanation := explain taScore faScore newsScore weighted rc.1 }

/-- An example technical SignalSet: nine Bullish leaves and one Neutral
leaf, so its category score is 9/10. -/
def exTechnical : SignalSet :=
  [("T1", Direction.Bullish, ""), ("T2", Direction.Bullish, ""),
   ("T3", Direction.Bullish, ""), ("T4", Direction.Bullish, ""),
   ("T5", Direction.Bullish, ""), ("T6", Direction.Bullish, ""),
   ("T7", Direction.Bullish, ""), ("T8", Direction.Bullish, ""),
   ("T9", Direction.Bullish, ""), ("T10", Direction.Neutral, "")]

/-- An example fundamental SignalSet: one Bullish leaf and nine Neutral
leaves, so its category score is 1/10. -/
def exFundamental : SignalSet :=
  [("F1", Direction.Bullish, ""), ("F2", Direction.Neutral, ""),
   ("F3", Direction.Neutral, ""), ("F4", Direction.Neutral, ""),
   ("F5", Direction.Neutral, ""), ("F6", Direction.Neutral, ""),
   ("F7", Direction.Neutral, ""), ("F8", Direction.Neutral, ""),
   ("F9", Direction.Neutral, ""), ("F10", Direction.Neutral, "")]

/-- C5: the Category Scorer applied to an empty SignalSet returns exactly
0.0. -/
theorem categoryScore_empty : categoryScore [] = 0 := rfl

/-- C9: the three configured weights (technical 0.40, fundamental 0.35,
news 0.25) sum to 1.0, hence within a tolerance of 1e-9. -/
theorem weights_sum :
    WEIGHTS.technical + WEIGHTS.fundamental + WEIGHTS.news = 1 ∧
    |WEIGHTS.technical + WEIGHTS.fundamental + WEIGHTS.news - 1| ≤
      1 / 1000000000 := by
  constructor
  · norm_num [WEIGHTS]
  · norm_num [WEIGHTS]

/-- C1: the classifier maps each composite score to exactly the band of the
spec's table with the stated boundary inclusivity: s ≥ 0.40 is STRONG
BUY/High; 0.15 ≤ s < 0.40 is BUY/Moderate; -0.15 < s < 0.15 is HOLD with no
confidence; -0.40 < s ≤ -0.15 is SELL/Moderate; s ≤ -0.40 is STRONG
SELL/High. In particular 0.15 is BUY, -0.15 is SELL, 0.40 is STRONG BUY and
-0.40 is STRONG SELL. -/
theorem mapScore_bands (s : ℚ) :
    (s ≥ 4 / 10 → mapScore s = ("STRONG BUY", "High")) ∧
    (15 / 100 ≤ s → s < 4 / 10 → mapScore s = ("BUY", "Moderate")) ∧
    (-(15 / 100) < s → s < 15 / 100 → mapScore s = ("HOLD", "—")) ∧
    (-(4 / 10) < s → s ≤ -(15 / 100) → mapScore s = ("SELL", "Moderate")) ∧
    (s ≤ -(4 / 10) → mapScore s = ("STRONG SELL", "High")) := by
  unfold mapScore
  refine ⟨?_, ?_, ?_, ?_, ?_⟩ <;> intros <;> split_ifs <;>
    first
    | rfl
    | linarith

/-- Witness for C1 at the four boundary scores and at 0. -/
theorem mapScore_bands_witness :
    mapScore (4 / 10) = ("STRONG BUY", "High") ∧
    mapScore (15 / 100) = ("BUY", "Moderate") ∧
    mapScore 0 = ("HOLD", "—") ∧
    mapScore (-(15 / 100)) = ("SELL", "Moderate") ∧
    mapScore (-(4 / 10)) = ("STRONG SELL", "High") :=
  ⟨(mapScore_bands (4 / 10)).1 (by norm_num),
   (mapScore_bands (15 / 100)).2.1 (by norm_num) (by norm_num),
   (mapScore_bands 0).2.2.1 (by norm_num) (by norm_num),
   (mapScore_bands (-(15 / 100))).2.2.2.1 (by norm_num) (by norm_num),
   (mapScore_bands (-(4 / 10))).2.2.2.2 (by norm_num)⟩

/-- C4: for category scores each in [-1, 1], the composite equals
ta*0.40 + fa*0.35 + news*0.25 and lies in [-1, 1]. -/
theorem compositeScore_bounds (ta fa news : ℚ)
    (hta1 : -1 ≤ ta) (hta2 : ta ≤ 1) (hfa1 : -1 ≤ fa) (hfa2 : fa ≤ 1)
    (hnews1 : -1 ≤ news) (hnews2 : news ≤ 1) :
    compositeScore ta fa news =
      ta * (40 / 100) + fa * (35 / 100) + news * (25 / 100) ∧
    -1 ≤ compositeScore ta fa news ∧ compositeScore ta fa news ≤ 1 := by
  refine ⟨rfl, ?_, ?_⟩ <;>
    simp only [compositeScore, WEIGHTS] <;> linarith

/-- Witness for C4 at the extreme scores (1, 1, -1). -/
theorem compositeScore_bounds_witness :
    compositeScore 1 1 (-1) =
      1 * (40 / 100) + 1 * (35 / 100) + (-1) * (25 / 100) ∧
    -1 ≤ compositeScore 1 1 (-1) ∧ compositeScore 1 1 (-1) ≤ 1 :=
  compositeScore_bounds 1 1 (-1) (by norm_num) (by norm_num) (by norm_num)
    (by norm_num) (by norm_num) (by norm_num)

theorem leafTotal_le_leafCount (l : SignalSet) :
    leafTotal l ≤ (leafCount l : Int) := by
  induction l with
  | nil => simp [leafTotal, leafCount]
  | cons e rest ih =>
    simp only [leafTotal, leafCount, entryTotal, entryCount]
    rcases e with ⟨key, dir, reason⟩
    cases dir <;> split_ifs <;> push_cast <;> omega

theorem neg_leafCount_le_leafTotal (l : SignalSet) :
    -(leafCount l : Int) ≤ leafTotal l := by
  induction l with
  | nil => simp [leafTotal, leafCount]
  | cons e rest ih =>
    simp only [leafTotal, leafCount, entryTotal, entryCount]
    rcases e with ⟨key, dir, reason⟩
    cases dir <;> split_ifs <;> push_cast <;> omega

/-- C6: for every SignalSet, the Category Scorer's output lies in
[-1.0, 1.0]. -/
theorem categoryScore_range (l : SignalSet) :
    -1 ≤ categoryScore l ∧ categoryScore l ≤ 1 := by
  unfold categoryScore
  split_ifs with h1 h2
  · norm_num
  · norm_num
  · have hpos : 0 < (leafCount l : ℚ) := by
      have := Nat.pos_of_ne_zero h2
      exact_mod_cast this
    have hle : (leafTotal l : ℚ) ≤ (leafCount l : ℚ) := by
      exact_mod_cast leafTotal_le_leafCount l
    have hge : -((leafCount l : ℚ)) ≤ (leafTotal l : ℚ) := by
      exact_mod_cast neg_leafCount_le_leafTotal l
    constructor
    · rw [le_div_iff₀ hpos]
      linarith
    · rw [div_le_one hpos]
      exact hle

theorem leafCount_append (l1 l2 : SignalSet) :
    leafCount (l1 ++ l2) = leafCount l1 + leafCount l2 := by
  induction l1 with
  | nil => simp [leafCount]
  | cons e rest ih => simp [leafCount, ih, Nat.add_assoc]

theorem leafTotal_append (l1 l2 : SignalSet) :
    leafTotal (l1 ++ l2) = leafTotal l1 + leafTotal l2 := by
  induction l1 with
  | nil => simp [leafTotal]
  | cons e rest ih => simp [leafTotal, ih, Int.add_assoc]

/-- C2: inserting an aggregate-keyed entry anywhere in a SignalSet never
changes the Category Scorer's output: the entry counts toward neither the
numerator nor the denominator. -/
theorem categoryScore_aggregate_insert (l1 l2 : SignalSet) (key : String)
    (dir : Direction) (reason : String) (hk : isAggregateKey key = true) :
    categoryScore (l1 ++ (key, dir, reason) :: l2) = categoryScore (l1 ++ l2) := by
  have hcount : leafCount (l1 ++ (key, dir, reason) :: l2) = leafCount (l1 ++ l2) := by
    simp [leafCount_append, leafCount, entryCount, hk]
  have htotal : leafTotal (l1 ++ (key, dir, reason) :: l2) = leafTotal (l1 ++ l2) := by
    simp [leafTotal_append, leafTotal, entryTotal, hk]
  have hne : l1 ++ (key, dir, reason) :: l2 ≠ [] := by simp
  by_cases h0 : l1 ++ l2 = []
  · obtain ⟨h1, h2⟩ := List.append_eq_nil.mp h0
    subst h1
    subst h2
    unfold categoryScore
    simp [leafCount, entryCount, hk]
  · unfold categoryScore
    rw [if_neg hne, if_neg h0, hcount, htotal]

/-- Witness for C2: inserting the entry keyed "_News_Overall" between two
leaf entries leaves the score unchanged. -/
theorem categoryScore_aggregate_insert_witness :
    isAggregateKey "_News_Overall" = true ∧
    categoryScore ([("RSI", Direction.Bullish, "r1")] ++
        ("_News_Overall", Direction.Bearish, "agg") ::
          [("MACD", Direction.Bearish, "r2")]) =
      categoryScore ([("RSI", Direction.Bullish, "r1")] ++
        [("MACD", Direction.Bearish, "r2")]) :=
  ⟨by decide,
   categoryScore_aggregate_insert [("RSI", Direction.Bullish, "r1")]
     [("MACD", Direction.Bearish, "r2")] "_News_Overall" Direction.Bearish
     "agg" (by decide)⟩

theorem leafCount_eq_zero_of_all_aggregate :
    ∀ l : SignalSet, (∀ e ∈ l, isAggregateKey e.1 = true) → leafCount l = 0
  | [], _ => rfl
  | e :: rest, hall => by
    have hk := hall e (List.mem_cons_self _ _)
    have hrest := leafCount_eq_zero_of_all_aggregate rest
      (fun x hx => hall x (List.mem_cons_of_mem _ hx))
    simp [leafCount, entryCount, hk, hrest]

/-- C3: a non-empty SignalSet whose keys all satisfy the aggregate-key
predicate scores exactly 0.0 (the leaf count is zero and the division is
guarded), so such a set — in particular the news collaborator's set, keyed
only "_News_Overall" — contributes a zero term to the composite. -/
theorem categoryScore_all_aggregate (l : SignalSet) (hne : l ≠ [])
    (hall : ∀ e ∈ l, isAggregateKey e.1 = true) :
    categoryScore l = 0 ∧ categoryScore l * WEIGHTS.news = 0 := by
  have h0 : categoryScore l = 0 := by
    unfold categoryScore
    rw [if_neg hne, if_pos (leafCount_eq_zero_of_all_aggregate l hall)]
  exact ⟨h0, by rw [h0, zero_mul]⟩

/-- Witness for C3: the news collaborator's SignalSet, whose only entry is
keyed "_News_Overall", scores 0 and contributes a zero news term. -/
theorem categoryScore_all_aggregate_witness :
    categoryScore [("_News_Overall", Direction.Bullish, "Avg sentiment 0.500, 3/4 positive")] = 0 ∧
    categoryScore [("_News_Overall", Direction.Bullish, "Avg sentiment 0.500, 3/4 positive")] *
      WEIGHTS.news = 0 :=
  categoryScore_all_aggregate
    [("_News_Overall", Direction.Bullish, "Avg sentiment 0.500, 3/4 positive")]
    (by simp) (by decide)

theorem leafCount_perm {l l' : SignalSet} (h : l.Perm l') :
    leafCount l = leafCount l' := by
  induction h with
  | nil => rfl
  | cons x _ ih => simp [leafCount, ih]
  | swap x y l => simp [leafCount, Nat.add_left_comm]
  | trans _ _ ih1 ih2 => exact ih1.trans ih2

theorem leafTotal_perm {l l' : SignalSet} (h : l.Perm l') :
    leafTotal l = leafTotal l' := by
  induction h with
  | nil => rfl
  | cons x _ ih => simp [leafTotal, ih]
  | swap x y l => simp [leafTotal, Int.add_left_comm]
  | trans _ _ ih1 ih2 => exact ih1.trans ih2

theorem categoryScore_perm {l l' : SignalSet} (h : l.Perm l') :
    categoryScore l = categoryScore l' := by
  by_cases hl : l = []
  · subst hl
    rw [h.symm.eq_nil]
  · have hl' : l' ≠ [] := fun hh => hl ((hh ▸ h).eq_nil)
    unfold categoryScore
    rw [if_neg hl, if_neg hl', leafCount_perm h, leafTotal_perm h]

/-- C7: decide() is deterministic and independent of mapping iteration
order: on SignalSets holding the same entries (in any order) it yields the
identical Decision bundle, explanation text included. -/
theorem decide_deterministic (ta ta' fa fa' news news' : SignalSet)
    (hta : ta.Perm ta') (hfa : fa.Perm fa') (hnews : news.Perm news') :
    decide ta fa news = decide ta' fa' news' := by
  unfold decide
  rw [categoryScore_perm hta, categoryScore_perm hfa, categoryScore_perm hnews]

/-- Witness for C7: reordering the two technical entries leaves the whole
Decision unchanged. -/
theorem decide_deterministic_witness :
    decide [("RSI", Direction.Bullish, "a"), ("MACD", Direction.Bearish, "b")]
        [("PE", Direction.Neutral, "c")] []
      = decide [("MACD", Direction.Bearish, "b"), ("RSI", Direction.Bullish, "a")]
        [("PE", Direction.Neutral, "c")] [] :=
  decide_deterministic _ _ _ _ _ _
    (List.Perm.swap ("MACD", Direction.Bearish, "b") ("RSI", Direction.Bullish, "a") [])
    (List.Perm.refl _) (List.Perm.refl _)

theorem mapScore_fst_cases (s : ℚ) :
    (mapScore s).1 = "STRONG BUY" ∨ (mapScore s).1 = "BUY" ∨
    (mapScore s).1 = "HOLD" ∨ (mapScore s).1 = "SELL" ∨
    (mapScore s).1 = "STRONG SELL" := by
  unfold mapScore
  split_ifs <;> simp

/-- C8: decide() is total: any three SignalSets, empty ones included, yield
a Decision carrying one of the five recommendation labels (the scorer's
division is guarded, so no error branch exists), and three empty SignalSets
classify as HOLD with no confidence. -/
theorem decide_total (ta fa news : SignalSet) :
    ((decide ta fa news).recommendation = "STRONG BUY" ∨
     (decide ta fa news).recommendation = "BUY" ∨
     (decide ta fa news).recommendation = "HOLD" ∨
     (decide ta fa news).recommendation = "SELL" ∨
     (decide ta fa news).recommendation = "STRONG SELL") ∧
    (decide [] [] []).recommendation = "HOLD" ∧
    (decide [] [] []).confidence = "—" := by
  have h0 : categoryScore [] = 0 := rfl
  have hrec : ∀ ta' fa' news' : SignalSet,
      (decide ta' fa' news').recommendation =
        (mapScore (compositeScore (categoryScore ta') (categoryScore fa')
          (categoryScore news'))).1 := fun _ _ _ => rfl
  have hconf : (decide ([] : SignalSet) [] []).confidence =
      (mapScore (compositeScore (categoryScore []) (categoryScore [])
        (categoryScore []))).2 := rfl
  have hzero : compositeScore (categoryScore []) (categoryScore [])
      (categoryScore []) = 0 := by
    rw [h0]
    norm_num [compositeScore, WEIGHTS]
  have hmap : mapScore 0 = ("HOLD", "—") := by
    norm_num [mapScore]
  refine ⟨?_, ?_, ?_⟩
  · rw [hrec]
    exact mapScore_fst_cases _
  · rw [hrec, hzero, hmap]
  · rw [hconf, hzero, hmap]

/-- C10: the recommendation comes from the unrounded composite while the
reported Weighted Score is rounded to 2 decimals: there are inputs (here
composite = 0.395) whose reported Weighted Score equals 0.40 — the STRONG
BUY boundary, which the classifier sends to STRONG BUY — while the actual
recommendation is BUY. -/
theorem rounding_boundary_mismatch :
    ∃ ta fa news : SignalSet,
      (decide ta fa news).weightedScore = 40 / 100 ∧
      mapScore ((decide ta fa news).weightedScore) = ("STRONG BUY", "High") ∧
      (decide ta fa news).recommendation = "BUY" := by
  have hta : categoryScore exTechnical = 9 / 10 := by
    have hne : exTechnical ≠ [] := by simp [exTechnical]
    have hc : leafCount exTechnical = 10 := by decide
    have ht : leafTotal exTechnical = 9 := by decide
    unfold categoryScore
    rw [if_neg hne, hc, ht]
    norm_num
  have hfa : categoryScore exFundamental = 1 / 10 := by
    have hne : exFundamental ≠ [] := by simp [exFundamental]
    have hc : leafCount exFundamental = 10 := by decide
    have ht : leafTotal exFundamental = 1 := by decide
    unfold categoryScore
    rw [if_neg hne, hc, ht]
    norm_num
  have hnews : categoryScore [] = 0 := rfl
  have hcomp : compositeScore (categoryScore exTechnical)
      (categoryScore exFundamental) (categoryScore []) = 79 / 200 := by
    rw [hta, hfa, hnews]
    norm_num [compositeScore, WEIGHTS]
  have hws : (decide exTechnical exFundamental []).weightedScore =
      round2 (compositeScore (categoryScore exTechnical)
        (categoryScore exFundamental) (categoryScore [])) := rfl
  have hrec : (decide exTechnical exFundamental []).recommendation =
      (mapScore (compositeScore (categoryScore exTechnical)
        (categoryScore exFundamental) (categoryScore []))).1 := rfl
  have hround : round2 (79 / 200) = 40 / 100 := by
    have hfloor : ⌊(79 / 200 * 100 : ℚ)⌋ = 39 := by
      norm_num
    unfold round2 roundHalfEven
    rw [Int.fract, hfloor]
    norm_num
  refine ⟨exTechnical, exFundamental, [], ?_, ?_, ?_⟩
  · rw [hws, hcomp, hround]
  · rw [hws, hcomp, hround]
    norm_num [mapScore]
  · rw [hrec, hcomp]
    norm_num [mapScore]

end StockAnalysis
